import Mathlib

set_option maxRecDepth 100000

/-!
Verification development for the metrics-extraction and rightsizing logic of
`aws_fixed_reporter.py`.  Machine floats of the source are modelled as exact
rationals (`ℚ`); Python dictionaries with optional keys are modelled as
structures with `Option` fields; a Python `KeyError` is modelled with
`Except Unit`.
-/

/-! ## Rounding (Python `round(x, ndigits)`: round half to even) -/

/-- Round a rational to the nearest integer, ties to even, as Python `round`
does on its (here exactly represented) argument. -/
def roundHalfEven (x : ℚ) : Int :=
  let f : Int := Rat.floor x
  let r : ℚ := x - (f : ℚ)
  if r < 1/2 then f
  else if 1/2 < r then f + 1
  else if f % 2 = 0 then f else f + 1

/-- Python `round(x, 2)`. -/
def round2 (x : ℚ) : ℚ := ((roundHalfEven (x * 100) : Int) : ℚ) / 100

/-- Python `round(x, 1)`. -/
def round1 (x : ℚ) : ℚ := ((roundHalfEven (x * 10) : Int) : ℚ) / 10

/-! ## List helpers mirroring the pandas operations used by the source -/

def listMean (l : List ℚ) : ℚ := l.sum / (l.length : ℚ)

def listMax (l : List ℚ) : ℚ := l.foldl max (l.headD 0)

def listMin (l : List ℚ) : ℚ := l.foldl min (l.headD 0)

/-- Insert into an ascending list, after any equal elements (stable). -/
def insertAsc (le : α → α → Bool) (a : α) : List α → List α
  | [] => [a]
  | b :: bs => if le b a then b :: insertAsc le a bs else a :: b :: bs

/-- Stable insertion sort, ascending under `le`. -/
def sortAsc (le : α → α → Bool) (l : List α) : List α :=
  l.foldr (insertAsc le) []

/-- `Series.quantile(q)` with pandas' default linear interpolation:
sort ascending, take position `(n-1)*q`, interpolate between neighbours. -/
def quantileLinear (q : ℚ) (vs : List ℚ) : ℚ :=
  let ss := sortAsc (fun a b => decide (a ≤ b)) vs
  let n := ss.length
  if n = 0 then 0
  else
    let h : ℚ := ((n : ℚ) - 1) * q
    let i : Nat := (Rat.floor h).toNat
    let lo := ss.getD i 0
    let hi := ss.getD (i + 1) lo
    lo + (h - ((Rat.floor h : Int) : ℚ)) * (hi - lo)

/-! ## Utilization statistics (`_calculate_utilization_stats`) -/

/-- The per-metric statistics dictionary.  The source returns a reduced
dictionary `{'avg': 0, 'max': 0, 'min': 0, 'p95': 0, 'p90': 0,
'low_usage_days': 0}` when the column has no numeric value; the keys present
only in the full dictionary are modelled as `Option` fields. -/
structure UtilStats where
  avg : ℚ
  max : ℚ
  min : ℚ
  p95 : ℚ
  p90 : ℚ
  low_usage_days : Nat
  high_usage_days : Option Nat
  total_days : Option Nat
  low_usage_percentage : Option ℚ
  high_usage_percentage : Option ℚ
deriving DecidableEq, Repr

/-- The reduced statistics record returned for a column with no numeric
values. -/
def emptyStats : UtilStats :=
  { avg := 0, max := 0, min := 0, p95 := 0, p90 := 0, low_usage_days := 0,
    high_usage_days := none, total_days := none,
    low_usage_percentage := none, high_usage_percentage := none }

/-- `_calculate_utilization_stats`: the input column is the per-day metric
values after `pd.to_numeric(..., errors='coerce')`, a non-numeric entry being
`none`. -/
def calcStats (col : List (Option ℚ)) : UtilStats :=
  let vs := col.filterMap id
  if vs.isEmpty then emptyStats
  else
    let n := vs.length
    let low := (vs.filter (fun v => decide (v < 20))).length
    let high := (vs.filter (fun v => decide (80 < v))).length
    { avg := round2 (listMean vs),
      max := round2 (listMax vs),
      min := round2 (listMin vs),
      p95 := round2 (quantileLinear (95/100) vs),
      p90 := round2 (quantileLinear (90/100) vs),
      low_usage_days := low,
      high_usage_days := some high,
      total_days := some n,
      low_usage_percentage := some (round1 (((low : ℚ) / (n : ℚ)) * 100)),
      high_usage_percentage := some (round1 (((high : ℚ) / (n : ℚ)) * 100)) }

/-! ## Character-list primitives

The corresponding `String` library functions are implemented by well-founded
recursion on byte positions, which the kernel cannot evaluate; these
structurally recursive versions on `List Char` compute the same strings. -/

/-- Python `str.strip()` (leading and trailing whitespace removed). -/
def trimChars (l : List Char) : List Char :=
  ((l.dropWhile Char.isWhitespace).reverse.dropWhile Char.isWhitespace).reverse

/-- Split on a single-character separator, Python `str.split(sep)`. -/
def splitOnChar (sep : Char) : List Char → List (List Char)
  | [] => [[]]
  | c :: cs =>
    let r := splitOnChar sep cs
    if c = sep then [] :: r
    else
      match r with
      | [] => [[c]]
      | h :: t => (c :: h) :: t

/-- Join with a single-character separator, Python `sep.join(parts)`. -/
def joinWith (sep : Char) : List (List Char) → List Char
  | [] => []
  | [x] => x
  | x :: xs => x ++ sep :: joinWith sep xs

def lowerChars (l : List Char) : List Char := l.map Char.toLower

/-! ## Python `float()` on strings

`parseFloatAux s = none` models a `ValueError`; `parseFloatAux s = some none`
models a successful parse to a non-finite value (`inf`/`nan`), which fails
every `0 <= v <= 100` range check; `parseFloatAux s = some (some q)` is a
finite value.  Underscore digit separators are not modelled; no caller in
this file produces them. -/

def parseDigits (cs : List Char) : Option Nat :=
  if cs.isEmpty then none
  else if cs.all Char.isDigit then
    some (cs.foldl (fun a c => a * 10 + (c.toNat - 48)) 0)
  else none

def parseMantissa (m : List Char) : Option ℚ :=
  match splitOnChar '.' m with
  | [i] => (parseDigits i).map (fun n => (n : ℚ))
  | [i, f] =>
    if i.isEmpty && f.isEmpty then none
    else if i.all Char.isDigit && f.all Char.isDigit then
      some ((((i ++ f).foldl (fun a c => a * 10 + (c.toNat - 48)) 0 : Nat) : ℚ)
        / ((10 : ℚ) ^ f.length))
    else none
  | _ => none

def parseExpPart (ex : List Char) : Option Int :=
  match ex with
  | '+' :: rest => (parseDigits rest).map (fun n => (n : Int))
  | '-' :: rest => (parseDigits rest).map (fun n => -(n : Int))
  | rest => (parseDigits rest).map (fun n => (n : Int))

def parseUnsigned (body : List Char) : Option (Option ℚ) :=
  let l := lowerChars body
  if l = "inf".toList || l = "infinity".toList || l = "nan".toList then some none
  else
    match splitOnChar 'e' l with
    | [m] => (parseMantissa m).map some
    | [m, ex] =>
      match parseMantissa m, parseExpPart ex with
      | some q, some e => some (some (q * (10 : ℚ) ^ e))
      | _, _ => none
    | _ => none

def parseFloatAuxChars (l : List Char) : Option (Option ℚ) :=
  match trimChars l with
  | [] => none
  | '+' :: rest => parseUnsigned rest
  | '-' :: rest => (parseUnsigned rest).map (fun o => o.map (fun q => -q))
  | t => parseUnsigned t

def parseFloatAux (s : String) : Option (Option ℚ) := parseFloatAuxChars s.toList

/-- The finite value of `float(s)`, when `float(s)` succeeds and is finite. -/
def parseFloat (s : String) : Option ℚ := (parseFloatAux s).bind id

/-! ## Metrics extractor (the parsing block of `get_fixed_ssm_metrics`)

The input is the list of stripped non-empty lines of the remote command's
standard output; everything around the parse (SSM transport, polling) is an
external collaborator. -/

structure Metrics where
  memory_percent : ℚ
  disk_usage_avg : ℚ
  disk_details : List (String × ℚ)
  collection_method : String
  success : Bool
  efs_attached : Bool
  efs_details : Option (String × String × String × String)
deriving DecidableEq, Repr

/-- Python `s.split(':', 1)` for a string containing `':'`. -/
def splitFirstColon (l : List Char) : List Char × List Char :=
  match splitOnChar ':' l with
  | [] => (l, [])
  | [a] => (a, [])
  | a :: rest => (a, joinWith ':' rest)

/-- One iteration of the middle-lines loop: a `filesystem:percent` pair is
kept when the line contains `':'`, its percent part (all `'%'` characters
removed, Python `replace('%', '')`) parses as a float, and the value lies in
`[0, 100]`. -/
def parsePair (s : String) : Option (String × ℚ) :=
  let cs := s.toList
  if cs.any (fun c => c = ':') then
    let p := splitFirstColon cs
    match parseFloatAuxChars (p.2.filter (fun c => c ≠ '%')) with
    | some (some v) => if 0 ≤ v && v ≤ 100 then some (String.mk p.1, v) else none
    | _ => none
  else none

/-- `end_index = len(lines) - 2 if len(lines) > 3 else len(lines) - 1`. -/
def endIdx (n : Nat) : Nat := if 3 < n then n - 2 else n - 1

/-- The lines visited by `for i in range(1, end_index)`. -/
def middleLines (lines : List String) : List String :=
  (lines.drop 1).take (endIdx lines.length - 1)

def diskDetails (lines : List String) : List (String × ℚ) :=
  (middleLines lines).filterMap parsePair

def diskUsages (lines : List String) : List ℚ :=
  (diskDetails lines).map Prod.snd

/-- `lines[-2] if len(lines) > 3 else lines[-1]`. -/
def designatedLine (lines : List String) : String :=
  if 3 < lines.length then lines.getD (lines.length - 2) ""
  else lines.getD (lines.length - 1) ""

/-- The average-disk-usage field: the designated line when it parses to a
value in range; `0` when it parses out of range (including `inf`/`nan`); the
mean of the parsed per-filesystem percentages when `float()` raises; `0` when
that fallback has nothing to average. -/
def avgDisk (lines : List String) : ℚ :=
  if 2 < lines.length then
    match parseFloatAux (designatedLine lines) with
    | some (some v) => if 0 ≤ v && v ≤ 100 then v else 0
    | some none => 0
    | none => if (diskUsages lines).isEmpty then 0 else listMean (diskUsages lines)
  else if (diskUsages lines).isEmpty then 0 else listMean (diskUsages lines)

/-- The memory field and the success flag (set together, only when the first
line parses to a value in `[0, 100]`). -/
def memoryField (lines : List String) : ℚ × Bool :=
  match lines with
  | [] => (0, false)
  | l0 :: _ =>
    match parseFloat l0 with
    | some v => if 0 ≤ v && v ≤ 100 then (v, true) else (0, false)
    | none => (0, false)

/-- The EFS fields, read from the last line only when there are more than 3
lines. -/
def efsFields (lines : List String) : Bool × Option (String × String × String × String) :=
  if 3 < lines.length then
    let e := trimChars (lines.getLastD "").toList
    if e ≠ [] && e ≠ "NO_EFS".toList then
      let details :=
        if e.any (fun c => c = ':') then
          let ps := splitOnChar ':' e
          if 4 ≤ ps.length then
            some (String.mk (ps.getD 0 []), String.mk (ps.getD 1 []),
              String.mk (ps.getD 2 []), String.mk (ps.getD 3 []))
          else none
        else none
      (true, details)
    else (false, none)
  else (false, none)

/-- The parsing block of `get_fixed_ssm_metrics`, applied to the stripped
non-empty lines of the command output. -/
def extract (lines : List String) : Metrics :=
  let mem := memoryField lines
  let efs := efsFields lines
  { memory_percent := mem.1,
    disk_usage_avg := avgDisk lines,
    disk_details := diskDetails lines,
    collection_method := "ssm_fixed",
    success := mem.2,
    efs_attached := efs.1,
    efs_details := efs.2 }

/-! ## Static lookup tables (`_get_smaller_instance_type`,
`_get_larger_instance_type`, `_get_memory_optimized_type`) -/

def ec2DownsizeMap : List (String × String) :=
  [("t3a.large", "t3a.medium"), ("t3a.medium", "t3a.small"), ("t3a.small", "t3a.micro"),
   ("t3a.xlarge", "t3a.large"), ("t3a.2xlarge", "t3a.xlarge"),
   ("t3.large", "t3.medium"), ("t3.medium", "t3.small"), ("t3.small", "t3.micro"),
   ("t3.xlarge", "t3.large"), ("t3.2xlarge", "t3.xlarge"),
   ("m5.large", "t3a.large"), ("m5.xlarge", "m5.large"), ("m5.2xlarge", "m5.xlarge"),
   ("m5.4xlarge", "m5.2xlarge"),
   ("c5.large", "t3a.medium"), ("c5.xlarge", "c5.large"), ("c5.2xlarge", "c5.xlarge"),
   ("r5.large", "m5.large"), ("r5.xlarge", "r5.large"), ("r5.2xlarge", "r5.xlarge")]

def rdsDownsizeMap : List (String × String) :=
  [("db.t4g.medium", "db.t4g.small"), ("db.t4g.large", "db.t4g.medium"),
   ("db.t4g.xlarge", "db.t4g.large"), ("db.t4g.2xlarge", "db.t4g.xlarge"),
   ("db.t3.medium", "db.t3.small"), ("db.t3.large", "db.t3.medium"),
   ("db.t3.xlarge", "db.t3.large"), ("db.t3.2xlarge", "db.t3.xlarge"),
   ("db.m5.large", "db.t4g.large"), ("db.m5.xlarge", "db.m5.large"),
   ("db.m5.2xlarge", "db.m5.xlarge"),
   ("db.r5.large", "db.m5.large"), ("db.r5.xlarge", "db.r5.large"),
   ("db.r5.2xlarge", "db.r5.xlarge")]

def ec2UpsizeMap : List (String × String) :=
  [("t3a.micro", "t3a.small"), ("t3a.small", "t3a.medium"), ("t3a.medium", "t3a.large"),
   ("t3a.large", "t3a.xlarge"), ("t3a.xlarge", "t3a.2xlarge"),
   ("t3.micro", "t3.small"), ("t3.small", "t3.medium"), ("t3.medium", "t3.large"),
   ("t3.large", "t3.xlarge"), ("t3.xlarge", "t3.2xlarge"),
   ("t3a.2xlarge", "m5.xlarge"), ("t3.2xlarge", "m5.xlarge"),
   ("m5.large", "m5.xlarge"), ("m5.xlarge", "m5.2xlarge"), ("m5.2xlarge", "m5.4xlarge"),
   ("c5.large", "c5.xlarge"), ("c5.xlarge", "c5.2xlarge")]

def rdsUpsizeMap : List (String × String) :=
  [("db.t4g.micro", "db.t4g.small"), ("db.t4g.small", "db.t4g.medium"),
   ("db.t4g.medium", "db.t4g.large"), ("db.t4g.large", "db.t4g.xlarge"),
   ("db.t4g.xlarge", "db.t4g.2xlarge"),
   ("db.t3.micro", "db.t3.small"), ("db.t3.small", "db.t3.medium"),
   ("db.t3.medium", "db.t3.large"), ("db.t3.large", "db.t3.xlarge"),
   ("db.t4g.2xlarge", "db.m5.large"), ("db.t3.2xlarge", "db.m5.large"),
   ("db.m5.large", "db.m5.xlarge"), ("db.m5.xlarge", "db.m5.2xlarge")]

def ec2MemoryOptimizedMap : List (String × String) :=
  [("t3.medium", "r5.large"), ("t3.large", "r5.large"), ("t3.xlarge", "r5.xlarge"),
   ("t3a.medium", "r5.large"), ("t3a.large", "r5.large"), ("t3a.xlarge", "r5.xlarge"),
   ("m5.large", "r5.large"), ("m5.xlarge", "r5.xlarge"), ("m5.2xlarge", "r5.2xlarge"),
   ("c5.large", "r5.large"), ("c5.xlarge", "r5.xlarge")]

def rdsMemoryOptimizedMap : List (String × String) :=
  [("db.t4g.medium", "db.r5.large"), ("db.t4g.large", "db.r5.large"),
   ("db.t3.medium", "db.r5.large"), ("db.t3.large", "db.r5.large"),
   ("db.m5.large", "db.r5.large"), ("db.m5.xlarge", "db.r5.xlarge")]

/-- Python `dict.get(current_type, current_type)`. -/
def mapGetD (m : List (String × String)) (k : String) : String :=
  ((m.lookup k).getD k)

/-- `_get_smaller_instance_type`: any service other than `'EC2'` uses the RDS
table. -/
def getSmallerInstanceType (currentType service : String) : String :=
  if service = "EC2" then mapGetD ec2DownsizeMap currentType
  else mapGetD rdsDownsizeMap currentType

def getLargerInstanceType (currentType service : String) : String :=
  if service = "EC2" then mapGetD ec2UpsizeMap currentType
  else mapGetD rdsUpsizeMap currentType

def getMemoryOptimizedType (currentType service : String) : String :=
  if service = "EC2" then mapGetD ec2MemoryOptimizedMap currentType
  else mapGetD rdsMemoryOptimizedMap currentType

/-! ## Price tables and cost estimates (`_get_instance_monthly_cost`,
`_estimate_cost_savings`, `_estimate_cost_increase`) -/

def ec2Costs : List (String × ℚ) :=
  [("t3.nano", 3.80), ("t3.micro", 7.66), ("t3.small", 15.33), ("t3.medium", 30.66),
   ("t3.large", 61.32), ("t3.xlarge", 122.63), ("t3.2xlarge", 245.26),
   ("t3a.nano", 3.28), ("t3a.micro", 6.57), ("t3a.small", 13.14), ("t3a.medium", 26.28),
   ("t3a.large", 52.56), ("t3a.xlarge", 105.12), ("t3a.2xlarge", 210.24),
   ("m5.large", 70.08), ("m5.xlarge", 140.16), ("m5.2xlarge", 280.32), ("m5.4xlarge", 560.64),
   ("c5.large", 62.05), ("c5.xlarge", 124.10), ("c5.2xlarge", 248.20),
   ("r5.large", 91.25), ("r5.xlarge", 182.50), ("r5.2xlarge", 365.00), ("r5.4xlarge", 730.00)]

def rdsCosts : List (String × ℚ) :=
  [("db.t2.micro", 11.68), ("db.t2.small", 23.36), ("db.t2.medium", 46.72),
   ("db.t2.large", 93.44),
   ("db.t3.micro", 12.41), ("db.t3.small", 24.82), ("db.t3.medium", 49.64),
   ("db.t3.large", 99.28), ("db.t3.xlarge", 198.56), ("db.t3.2xlarge", 397.12),
   ("db.t4g.micro", 10.22), ("db.t4g.small", 20.44), ("db.t4g.medium", 40.88),
   ("db.t4g.large", 81.76), ("db.t4g.xlarge", 163.52), ("db.t4g.2xlarge", 327.04),
   ("db.m5.large", 105.12), ("db.m5.xlarge", 210.24), ("db.m5.2xlarge", 420.48),
   ("db.r5.large", 136.87), ("db.r5.xlarge", 273.75), ("db.r5.2xlarge", 547.50)]

/-- `_get_instance_monthly_cost`, falling back to 50.0 (EC2) or 75.0 (other). -/
def getInstanceMonthlyCost (instanceType service : String) : ℚ :=
  if service = "EC2" then (ec2Costs.lookup instanceType).getD 50
  else (rdsCosts.lookup instanceType).getD 75

/-- `_estimate_cost_savings`. -/
def estimateCostSavings (currentType recommendedType service : String) : ℚ :=
  max 0 (getInstanceMonthlyCost currentType service
    - getInstanceMonthlyCost recommendedType service)

/-- `_estimate_cost_increase`. -/
def estimateCostIncrease (currentType recommendedType service : String) : ℚ :=
  max 0 (getInstanceMonthlyCost recommendedType service
    - getInstanceMonthlyCost currentType service)

/-! ## Recommendation generation (`_generate_instance_recommendation`)

A Python `KeyError` on a missing statistics key is modelled as
`Except.error ()`; the `and` chains of the source short-circuit, so a missing
key is only read (and only raises) when the comparisons before it pass. -/

structure Recommendation where
  instance_id : String
  name : String
  service : String
  current_type : String
  data_points : Nat
  cpu_stats : UtilStats
  ram_stats : UtilStats
  disk_stats : Option UtilStats
  action : String
  reason : String
  confidence : String
  priority : String
  estimated_monthly_savings : ℚ
  estimated_monthly_cost_increase : ℚ
  recommended_type : String
deriving DecidableEq, Repr

/-- The dictionary `_generate_instance_recommendation` starts from (the
`monitor` default). -/
def baseRec (instanceId nm service instanceType : String)
    (cpuStats ramStats : UtilStats) (diskStats : Option UtilStats)
    (dataPoints : Nat) : Recommendation :=
  { instance_id := instanceId, name := nm, service := service,
    current_type := instanceType, data_points := dataPoints,
    cpu_stats := cpuStats, ram_stats := ramStats, disk_stats := diskStats,
    action := "monitor", reason := "Usage within normal range",
    confidence := "medium", priority := "low",
    estimated_monthly_savings := 0, estimated_monthly_cost_increase := 0,
    recommended_type := instanceType }

/-- The storage branch (`elif disk_stats and disk_stats['avg'] > 85 and
disk_stats['p95'] > 95`); `disk_stats` is `None` or a full dictionary, so no
key can be missing here. -/
def genRecDisk (base : Recommendation) (diskStats : Option UtilStats) : Recommendation :=
  match diskStats with
  | some d =>
    if 85 < d.avg ∧ 95 < d.p95 then
      { base with
        action := "increase_storage",
        reason := "High disk utilization: avg " ++ toString d.avg ++ "%",
        confidence := "medium", priority := "medium" }
    else base
  | none => base

/-- The RAM branch.  When its threshold comparisons pass but the memory-
optimized table has no entry, the branch was taken and the later `elif` is
not evaluated: the default record is returned unchanged. -/
def genRecRam (base : Recommendation) (service instanceType : String)
    (ramStats : UtilStats) (diskStats : Option UtilStats) : Except Unit Recommendation :=
  if 85 < ramStats.avg ∧ 95 < ramStats.p95 then
    match ramStats.high_usage_percentage with
    | none => .error ()
    | some h =>
      if 25 < h then
        let rt := getMemoryOptimizedType instanceType service
        if rt ≠ instanceType then
          .ok { base with
            action := "optimize_memory", recommended_type := rt,
            reason := "High RAM utilization: avg " ++ toString ramStats.avg
              ++ "%, 95th percentile " ++ toString ramStats.p95 ++ "%",
            confidence := "medium", priority := "medium",
            estimated_monthly_cost_increase :=
              estimateCostIncrease instanceType rt service }
        else .ok base
      else .ok (genRecDisk base diskStats)
  else .ok (genRecDisk base diskStats)

/-- The upsize branch. -/
def genRecUp (base : Recommendation) (service instanceType : String)
    (cpuStats ramStats : UtilStats) (diskStats : Option UtilStats) :
    Except Unit Recommendation :=
  if 75 < cpuStats.avg ∧ 90 < cpuStats.p95 then
    match cpuStats.high_usage_percentage with
    | none => .error ()
    | some h =>
      if 30 < h then
        let rt := getLargerInstanceType instanceType service
        if rt ≠ instanceType then
          .ok { base with
            action := "upsize", recommended_type := rt,
            reason := "High CPU utilization: avg " ++ toString cpuStats.avg
              ++ "%, 95th percentile " ++ toString cpuStats.p95 ++ "%",
            confidence := "high", priority := "high",
            estimated_monthly_cost_increase :=
              estimateCostIncrease instanceType rt service }
        else .ok base
      else genRecRam base service instanceType ramStats diskStats
  else genRecRam base service instanceType ramStats diskStats

/-- The first four comparisons of the downsize condition. -/
def downFour (cpuStats ramStats : UtilStats) : Prop :=
  cpuStats.avg < 15 ∧ cpuStats.p95 < 30 ∧ ramStats.avg < 25 ∧ ramStats.p95 < 50

instance (c r : UtilStats) : Decidable (downFour c r) := by
  unfold downFour
  infer_instance

/-- `_generate_instance_recommendation`. -/
def genRec (instanceId nm service instanceType : String)
    (cpuStats ramStats : UtilStats) (diskStats : Option UtilStats)
    (dataPoints : Nat) : Except Unit Recommendation :=
  let base := baseRec instanceId nm service instanceType cpuStats ramStats
    diskStats dataPoints
  if downFour cpuStats ramStats then
    match cpuStats.low_usage_percentage with
    | none => .error ()
    | some lup =>
      if 70 < lup then
        let rt := getSmallerInstanceType instanceType service
        if rt ≠ instanceType then
          let savings := estimateCostSavings instanceType rt service
          .ok { base with
            action := "downsize", recommended_type := rt,
            reason := "Consistently low utilization: CPU avg "
              ++ toString cpuStats.avg ++ "%, RAM avg "
              ++ toString ramStats.avg ++ "%",
            confidence := "high",
            priority := if 100 < savings then "high" else "medium",
            estimated_monthly_savings := savings }
        else .ok base
      else genRecUp base service instanceType cpuStats ramStats diskStats
  else genRecUp base service instanceType cpuStats ramStats diskStats

/-! ## Monthly trend analysis (`analyze_monthly_trends`,
`_generate_monthly_summary`)

A history row models one record of the persisted history table after the
per-column `pd.to_numeric(..., errors='coerce')` conversions: a value that is
not numeric (pandas `NaN`) is `none`.  `date` is the row's `Date` after
`pd.to_datetime(..., errors='coerce')`, in days (`none` for `NaT`, which
fails every `>=` comparison).  The wall-clock reading `datetime.now()` is the
explicit parameter `now` of `analyze`. -/

structure Row where
  id : String
  date : Option Int
  service : String
  instanceType : String
  nameTag : String
  cpu : Option ℚ
  ram : Option ℚ
  disk : Option ℚ
deriving DecidableEq, Repr

def defaultRow : Row :=
  { id := "", date := none, service := "", instanceType := "", nameTag := "",
    cpu := none, ram := none, disk := none }

/-- `Date >= cutoff_date` with `cutoff_date = now - 30 days`; `NaT >= cutoff`
is false. -/
def inWindow (now : Int) (r : Row) : Bool :=
  match r.date with
  | some d => decide (now - 30 ≤ d)
  | none => false

/-- `Series.unique()`: the distinct values in order of first appearance. -/
def uniqueIds (rs : List Row) : List String :=
  rs.foldl (fun acc r => if r.id ∈ acc then acc else acc ++ [r.id]) []

/-- Count of distinct `Date` values, for `analysis_period_days`. -/
def uniqueDates (rs : List Row) : List (Option Int) :=
  rs.foldl (fun acc r => if r.date ∈ acc then acc else acc ++ [r.date]) []

/-- `instance_data.sort_values('Date')`, ascending. -/
def sortByDate (rs : List Row) : List Row :=
  sortAsc (fun a b => decide (a.date.getD 0 ≤ b.date.getD 0)) rs

/-- The per-resource body of the analysis loop: latest record, statistics,
recommendation.  `disk_stats` is `None` when the disk column has no numeric
value for this resource. -/
def recFor (instanceId : String) (grp : List Row) : Except Unit Recommendation :=
  let latest := (sortByDate grp).getLastD defaultRow
  let cpuStats := calcStats (grp.map (fun r => r.cpu))
  let ramStats := calcStats (grp.map (fun r => r.ram))
  let diskStats :=
    if (grp.filterMap (fun r => r.disk)).isEmpty then none
    else some (calcStats (grp.map (fun r => r.disk)))
  genRec instanceId latest.nameTag latest.service latest.instanceType
    cpuStats ramStats diskStats grp.length

/-- The analysis loop over the distinct resource ids: a resource with fewer
than 7 samples is skipped; a raised `KeyError` propagates. -/
def analyzeRecs (recent : List Row) : List String → Except Unit (List Recommendation)
  | [] => .ok []
  | instanceId :: rest =>
    let grp := recent.filter (fun r => r.id = instanceId)
    if grp.length < 7 then analyzeRecs recent rest
    else
      match recFor instanceId grp, analyzeRecs recent rest with
      | .ok r, .ok rs => .ok (r :: rs)
      | .error e, _ => .error e
      | _, .error e => .error e

/-- The summary dictionary built first from `recent_data` alone. -/
structure ASummary where
  total_instances : Nat
  analysis_period_days : Nat
  data_points : Nat
deriving DecidableEq, Repr

def genASummary (recent : List Row) : ASummary :=
  { total_instances := (uniqueIds recent).length,
    analysis_period_days := (uniqueDates recent).length,
    data_points := recent.length }

/-- `_generate_monthly_summary`.  The optional per-service averages model the
keys added only when the service has rows; the inner `Option` is pandas'
`NaN` mean of an all-`NaN` column. -/
structure MSummary where
  total_recommendations : Nat
  action_breakdown : List (String × Nat)
  estimated_monthly_savings : ℚ
  estimated_monthly_cost_increase : ℚ
  net_impact : ℚ
  high_priority_count : Nat
  ec2_instances_analyzed : Nat
  rds_instances_analyzed : Nat
  avg_ec2_cpu : Option (Option ℚ)
  avg_ec2_ram : Option (Option ℚ)
  avg_rds_cpu : Option (Option ℚ)
  avg_rds_ram : Option (Option ℚ)
deriving DecidableEq, Repr

/-- Increment a counter in an insertion-ordered association list (Python
`dict.get(action, 0) + 1`). -/
def bump (m : List (String × Nat)) (k : String) : List (String × Nat) :=
  if m.any (fun p => p.1 = k) then
    m.map (fun p => if p.1 = k then (p.1, p.2 + 1) else p)
  else m ++ [(k, 1)]

/-- `pd.to_numeric(col, errors='coerce').mean()` rounded to 2 digits;
`none` is the `NaN` produced when no value is numeric. -/
def meanOfColumn (col : List (Option ℚ)) : Option ℚ :=
  let vs := col.filterMap id
  if vs.isEmpty then none else some (round2 (listMean vs))

def genMSummary (recent : List Row) (recs : List Recommendation) : MSummary :=
  let actionCounts := recs.foldl (fun m r => bump m r.action) []
  let totalSavings := (recs.map (fun r => r.estimated_monthly_savings)).sum
  let totalIncrease := (recs.map (fun r => r.estimated_monthly_cost_increase)).sum
  let ec2Data := recent.filter (fun r => r.service = "EC2")
  let rdsData := recent.filter (fun r => r.service = "RDS")
  { total_recommendations := (recs.filter (fun r => r.action ≠ "monitor")).length,
    action_breakdown := actionCounts,
    estimated_monthly_savings := round2 totalSavings,
    estimated_monthly_cost_increase := round2 totalIncrease,
    net_impact := round2 (totalSavings - totalIncrease),
    high_priority_count := (recs.filter (fun r => r.priority = "high")).length,
    ec2_instances_analyzed := if ec2Data.isEmpty then 0 else (uniqueIds ec2Data).length,
    rds_instances_analyzed := if rdsData.isEmpty then 0 else (uniqueIds rdsData).length,
    avg_ec2_cpu := if ec2Data.isEmpty then none
      else some (meanOfColumn (ec2Data.map (fun r => r.cpu))),
    avg_ec2_ram := if ec2Data.isEmpty then none
      else some (meanOfColumn (ec2Data.map (fun r => r.ram))),
    avg_rds_cpu := if rdsData.isEmpty then none
      else some (meanOfColumn (rdsData.map (fun r => r.cpu))),
    avg_rds_ram := if rdsData.isEmpty then none
      else some (meanOfColumn (rdsData.map (fun r => r.ram))) }

/-- The result dictionary of `analyze_monthly_trends`; the early returns
carry empty `analysis` and `summary` dictionaries, modelled as `none`. -/
structure AnalyzeResult where
  recommendations : List Recommendation
  analysis : Option MSummary
  summary : Option ASummary
deriving DecidableEq, Repr

def emptyAnalyzeResult : AnalyzeResult :=
  { recommendations := [], analysis := none, summary := none }

/-- `analyze_monthly_trends`: `history` is the loaded historical table and
`now` the `datetime.now()` reading used for the 30-day cutoff. -/
def analyze (history : List Row) (now : Int) : Except Unit AnalyzeResult :=
  if history.isEmpty then .ok emptyAnalyzeResult
  else
    let recent := history.filter (inWindow now)
    if recent.isEmpty then .ok emptyAnalyzeResult
    else
      match analyzeRecs recent (uniqueIds recent) with
      | .error e => .error e
      | .ok recs =>
        .ok { recommendations := recs,
              analysis := some (genMSummary recent recs),
              summary := some (genASummary recent) }

deriving instance DecidableEq for Except

/-! ## Concrete data used by individual witnesses and counterexamples -/

def c3Lines : List String := ["42.50", "/dev/sda1:55%", "30.00", "NO_EFS"]

def c5Lines : List String := ["50.0", "/dev/sda1:10%", "bad", "NO_EFS"]

/-- A CPU column of 7 samples whose 95th percentile is exactly 30:
sorted `[5,5,5,5,5,30,30]`, position `6 * 0.95 = 5.7` interpolates between
two `30`s. -/
def c1CpuCol : List (Option ℚ) :=
  [some 5, some 5, some 5, some 5, some 5, some 30, some 30]

def c1RamCol : List (Option ℚ) :=
  [some 10, some 10, some 10, some 10, some 10, some 10, some 10]

def c2Cpu : UtilStats :=
  { avg := 10, max := 20, min := 5, p95 := 20, p90 := 18, low_usage_days := 6,
    high_usage_days := some 0, total_days := some 7,
    low_usage_percentage := some 80, high_usage_percentage := some 0 }

def c2Ram : UtilStats :=
  { avg := 15, max := 35, min := 5, p95 := 30, p90 := 28, low_usage_days := 5,
    high_usage_days := some 0, total_days := some 7,
    low_usage_percentage := some 70, high_usage_percentage := some 0 }

def c8Cpu : UtilStats :=
  { avg := 50, max := 70, min := 30, p95 := 60, p90 := 58, low_usage_days := 0,
    high_usage_days := some 0, total_days := some 7,
    low_usage_percentage := some 0, high_usage_percentage := some 0 }

def c8Ram : UtilStats :=
  { avg := 50, max := 70, min := 30, p95 := 60, p90 := 58, low_usage_days := 0,
    high_usage_days := some 0, total_days := some 7,
    low_usage_percentage := some 0, high_usage_percentage := some 0 }

def c8Disk : UtilStats :=
  { avg := 90, max := 97, min := 80, p95 := 96, p90 := 95, low_usage_days := 0,
    high_usage_days := some 7, total_days := some 7,
    low_usage_percentage := some 0, high_usage_percentage := some 100 }

/-- The `increase_storage` recommendation produced for `c8Cpu`/`c8Ram`/
`c8Disk`, recovered from `genRec` itself. -/
def c8WitnessRec : Recommendation :=
  (genRec "i-8" "node8" "EC2" "t3.large" c8Cpu c8Ram (some c8Disk) 7).toOption.getD
    (baseRec "i-8" "node8" "EC2" "t3.large" c8Cpu c8Ram (some c8Disk) 7)

def c1wCpu : UtilStats :=
  { avg := 10, max := 22, min := 4, p95 := 20, p90 := 18, low_usage_days := 6,
    high_usage_days := some 0, total_days := some 7,
    low_usage_percentage := some 80, high_usage_percentage := some 0 }

def c1wRam : UtilStats :=
  { avg := 15, max := 40, min := 5, p95 := 30, p90 := 28, low_usage_days := 4,
    high_usage_days := some 0, total_days := some 7,
    low_usage_percentage := some 57.1, high_usage_percentage := some 0 }

def c9Row (d : Int) : Row :=
  { id := "i-9", date := some d, service := "EC2", instanceType := "t3.large",
    nameTag := "node9", cpu := some 50, ram := some 50, disk := none }

def c9Hist : List Row := (List.range 7).map (fun k => c9Row (k : Int))

def c10Row (d : Int) : Row :=
  { id := "i-10", date := some d, service := "EC2", instanceType := "t3.large",
    nameTag := "node10", cpu := none, ram := none, disk := none }

def c10Hist : List Row := (List.range 7).map (fun k => c10Row (k : Int))


/-! # Claim theorems -/

/-- Claim C3: on the four lines `["42.50", "/dev/sda1:55%", "30.00",
"NO_EFS"]`, the extractor reports memory 42.5, exactly one disk pair
`("/dev/sda1", 55.0)`, average disk 30.0, no network filesystem attached,
and success. -/
theorem c3_extract_example :
    (extract c3Lines).memory_percent = 42.5 ∧
    (extract c3Lines).disk_details = [("/dev/sda1", 55)] ∧
    (extract c3Lines).disk_usage_avg = 30 ∧
    (extract c3Lines).efs_attached = false ∧
    (extract c3Lines).success = true := by
  with_unfolding_all decide

/-- Claim C4 (counterexample): for the two-line input `["50.0", "30.0"]`,
both lines parse as floats in range, yet the reported average disk usage is
`0`, not the last line's value `30`: the claim's designated average-disk line
is not consulted for two-line inputs. -/
theorem c4_two_line_counterexample :
    parseFloat "50.0" = some 50 ∧ (0 : ℚ) ≤ 50 ∧ (50 : ℚ) ≤ 100 ∧
    parseFloat "30.0" = some 30 ∧ (0 : ℚ) ≤ 30 ∧ (30 : ℚ) ≤ 100 ∧
    (extract ["50.0", "30.0"]).disk_usage_avg = 0 ∧
    (extract ["50.0", "30.0"]).disk_usage_avg ≠ 30 := by
  with_unfolding_all decide

/-- Claim C4 (amended): for every input of exactly two lines whose first and
last lines parse as floats in `[0, 100]`, the reported average disk usage is
`0`: the average-disk line is only read when there are more than two lines
(`len(lines) > 2`), and the per-filesystem fallback has nothing to average. -/
theorem c4_two_line_avg_zero (l0 l1 : String) (v0 v1 : ℚ)
    (h0 : parseFloat l0 = some v0) (h0a : 0 ≤ v0) (h0b : v0 ≤ 100)
    (h1 : parseFloat l1 = some v1) (h1a : 0 ≤ v1) (h1b : v1 ≤ 100) :
    (extract [l0, l1]).disk_usage_avg = 0 := by
  rfl

/-- Witness for C4 (amended) at the concrete input `["50.0", "30.0"]`. -/
theorem c4_two_line_avg_zero_witness :
    (extract ["50.0", "30.0"]).disk_usage_avg = 0 :=
  c4_two_line_avg_zero "50.0" "30.0" 50 30 (by with_unfolding_all decide)
    (by norm_num) (by norm_num) (by with_unfolding_all decide)
    (by norm_num) (by norm_num)

/-- Claim C5: for any input with more than two lines, the average-disk field
is the designated line's value when it parses in range; it is `0` when the
line parses (finite or not) to a value failing the range check — even if
per-filesystem pairs parsed; and the per-filesystem mean fallback is used
exactly when `float()` fails on the designated line. -/
theorem c5_avg_disk_fallback_condition (lines : List String)
    (hlen : 2 < lines.length) :
    (parseFloatAux (designatedLine lines) = none →
      (extract lines).disk_usage_avg =
        (if (diskUsages lines).isEmpty then 0 else listMean (diskUsages lines))) ∧
    (∀ v : ℚ, parseFloatAux (designatedLine lines) = some (some v) →
      ¬(0 ≤ v ∧ v ≤ 100) → (extract lines).disk_usage_avg = 0) ∧
    (parseFloatAux (designatedLine lines) = some none →
      (extract lines).disk_usage_avg = 0) ∧
    (∀ v : ℚ, parseFloatAux (designatedLine lines) = some (some v) →
      0 ≤ v → v ≤ 100 → (extract lines).disk_usage_avg = v) := by
  have hx : (extract lines).disk_usage_avg = avgDisk lines := rfl
  rw [hx]
  unfold avgDisk
  rw [if_pos hlen]
  cases hPA : parseFloatAux (designatedLine lines) with
  | none =>
    refine ⟨fun _ => rfl, ?_, ?_, ?_⟩ <;> intros <;> simp_all
  | some o =>
    cases o with
    | none =>
      refine ⟨?_, ?_, fun _ => rfl, ?_⟩ <;> intros <;> simp_all
    | some w =>
      dsimp only
      refine ⟨?_, fun v hv hr => ?_, ?_, fun v hv h0 h1 => ?_⟩
      · intro hc; exact absurd hc (by simp)
      · have hwv : v = w := by simpa using hv.symm
        have hr' : ¬(0 ≤ w ∧ w ≤ 100) := hwv ▸ hr
        have : ¬((decide (0 ≤ w) && decide (w ≤ 100)) = true) := by
          simpa [Bool.and_eq_true, decide_eq_true_eq] using hr'
        rw [if_neg this]
      · intro hc; exact absurd hc (by simp)
      · have hwv : v = w := by simpa using hv.symm
        have h0w : (0 : ℚ) ≤ w := hwv ▸ h0
        have h1w : w ≤ 100 := hwv ▸ h1
        have hc : (decide (0 ≤ w) && decide (w ≤ 100)) = true := by
          simp [h0w, h1w]
        rw [if_pos hc, hwv]

/-- Witness for C5 at a concrete four-line input with an unparseable
designated line and one parsed filesystem pair. -/
theorem c5_avg_disk_fallback_condition_witness :
    2 < c5Lines.length ∧
    (extract c5Lines).disk_usage_avg =
      (if (diskUsages c5Lines).isEmpty then 0 else listMean (diskUsages c5Lines)) :=
  ⟨by norm_num [c5Lines],
    (c5_avg_disk_fallback_condition c5Lines (by norm_num [c5Lines])).1
      (by with_unfolding_all decide)⟩

/-- Claim C6: the extractor's success flag equals whether the first line
parses as a float in `[0, 100]`; it is false on empty input, and it does not
depend on any line after the first. -/
theorem c6_success_characterization :
    (∀ (l0 : String) (rest : List String),
      (extract (l0 :: rest)).success =
        (parseFloat l0).elim false (fun v => decide (0 ≤ v) && decide (v ≤ 100))) ∧
    (extract []).success = false ∧
    (∀ (l0 : String) (rest rest' : List String),
      (extract (l0 :: rest)).success = (extract (l0 :: rest')).success) := by
  have key : ∀ (l0 : String) (rest : List String),
      (extract (l0 :: rest)).success =
        (parseFloat l0).elim false (fun v => decide (0 ≤ v) && decide (v ≤ 100)) := by
    intro l0 rest
    have hx : (extract (l0 :: rest)).success = (memoryField (l0 :: rest)).2 := rfl
    rw [hx]
    unfold memoryField
    dsimp only
    cases hp : parseFloat l0 with
    | none => rfl
    | some v =>
      dsimp only [Option.elim]
      by_cases hc : (decide (0 ≤ v) && decide (v ≤ 100)) = true
      · rw [if_pos hc, hc]
      · rw [if_neg hc, Bool.not_eq_true] at *
        rw [hc]
  exact ⟨key, rfl, fun l0 rest rest' => by rw [key l0 rest, key l0 rest']⟩

/-! ## Helper lemmas about `genRec` -/

theorem zero_le_estimateCostSavings (a b s : String) :
    0 ≤ estimateCostSavings a b s := le_max_left 0 _

theorem zero_le_estimateCostIncrease (a b s : String) :
    0 ≤ estimateCostIncrease a b s := le_max_left 0 _

/-- Every successful `genRec` result carries the caller's resource id, and
falls into one of five shapes according to the action taken. -/
theorem genRec_ok_cases (instanceId nm service instanceType : String)
    (cpu ram : UtilStats) (disk : Option UtilStats) (n : Nat) (r : Recommendation)
    (h : genRec instanceId nm service instanceType cpu ram disk n = .ok r) :
    r.instance_id = instanceId ∧
    ((r.action = "monitor" ∧ r.estimated_monthly_savings = 0 ∧
        r.estimated_monthly_cost_increase = 0) ∨
     (r.action = "downsize" ∧ r.estimated_monthly_cost_increase = 0 ∧
        r.estimated_monthly_savings =
          estimateCostSavings instanceType r.recommended_type service) ∨
     (r.action = "upsize" ∧ r.estimated_monthly_savings = 0 ∧
        r.estimated_monthly_cost_increase =
          estimateCostIncrease instanceType r.recommended_type service) ∨
     (r.action = "optimize_memory" ∧ r.estimated_monthly_savings = 0 ∧
        r.estimated_monthly_cost_increase =
          estimateCostIncrease instanceType r.recommended_type service) ∨
     (r.action = "increase_storage" ∧ r.estimated_monthly_savings = 0 ∧
        r.estimated_monthly_cost_increase = 0)) := by
  simp only [genRec, genRecUp, genRecRam, genRecDisk] at h
  repeat' split at h
  all_goals try (injection h with h)
  all_goals try subst h
  all_goals simp_all [baseRec]

/-- When the downsize condition fails (either its first four comparisons or
the low-usage test), control reaches the upsize `elif`. -/
theorem genRec_skip_down (instanceId nm service instanceType : String)
    (cpu ram : UtilStats) (disk : Option UtilStats) (n : Nat) (lup : ℚ)
    (hlup : cpu.low_usage_percentage = some lup)
    (hnd : ¬(downFour cpu ram ∧ 70 < lup)) :
    genRec instanceId nm service instanceType cpu ram disk n =
      genRecUp (baseRec instanceId nm service instanceType cpu ram disk n)
        service instanceType cpu ram disk := by
  unfold genRec
  dsimp only
  by_cases hdf : downFour cpu ram
  · rw [if_pos hdf, hlup]
    dsimp only
    rw [if_neg (fun h70 => hnd ⟨hdf, h70⟩)]
  · rw [if_neg hdf]

/-- Downsize condition met but the downsize table has no entry: the default
record is returned and the later branches are not evaluated. -/
theorem genRec_down_miss (instanceId nm service instanceType : String)
    (cpu ram : UtilStats) (disk : Option UtilStats) (n : Nat) (lup : ℚ)
    (hlup : cpu.low_usage_percentage = some lup)
    (hd : downFour cpu ram) (h70 : 70 < lup)
    (hmiss : getSmallerInstanceType instanceType service = instanceType) :
    genRec instanceId nm service instanceType cpu ram disk n =
      .ok (baseRec instanceId nm service instanceType cpu ram disk n) := by
  unfold genRec
  dsimp only
  rw [if_pos hd, hlup]
  dsimp only
  rw [if_pos h70, if_neg (not_not_intro hmiss)]

/-- Upsize condition met but the upsize table has no entry. -/
theorem genRecUp_enter_miss (base : Recommendation) (service instanceType : String)
    (cpu ram : UtilStats) (disk : Option UtilStats) (hcp : ℚ)
    (hh : cpu.high_usage_percentage = some hcp)
    (h2 : 75 < cpu.avg ∧ 90 < cpu.p95) (h3 : 30 < hcp)
    (hmiss : getLargerInstanceType instanceType service = instanceType) :
    genRecUp base service instanceType cpu ram disk = .ok base := by
  unfold genRecUp
  rw [if_pos h2, hh]
  dsimp only
  rw [if_pos h3, if_neg (not_not_intro hmiss)]

/-- Upsize condition not met: control reaches the RAM `elif`. -/
theorem genRecUp_skip (base : Recommendation) (service instanceType : String)
    (cpu ram : UtilStats) (disk : Option UtilStats) (hcp : ℚ)
    (hh : cpu.high_usage_percentage = some hcp)
    (hn : ¬((75 < cpu.avg ∧ 90 < cpu.p95) ∧ 30 < hcp)) :
    genRecUp base service instanceType cpu ram disk =
      genRecRam base service instanceType ram disk := by
  unfold genRecUp
  by_cases h2 : 75 < cpu.avg ∧ 90 < cpu.p95
  · rw [if_pos h2, hh]
    dsimp only
    rw [if_neg (fun h3 => hn ⟨h2, h3⟩)]
  · rw [if_neg h2]

/-- RAM condition met but the memory-optimized table has no entry. -/
theorem genRecRam_enter_miss (base : Recommendation) (service instanceType : String)
    (ram : UtilStats) (disk : Option UtilStats) (hrp : ℚ)
    (hh : ram.high_usage_percentage = some hrp)
    (h2 : 85 < ram.avg ∧ 95 < ram.p95) (h3 : 25 < hrp)
    (hmiss : getMemoryOptimizedType instanceType service = instanceType) :
    genRecRam base service instanceType ram disk = .ok base := by
  unfold genRecRam
  rw [if_pos h2, hh]
  dsimp only
  rw [if_pos h3, if_neg (not_not_intro hmiss)]

/-! ## Claims C1, C2, C8 -/

/-- Claim C1 (counterexample): CPU statistics computed from real samples with
95th percentile exactly 30 — together with all the other downsize conditions
of the claim (which takes the boundary `cpu95 = 30` to satisfy `cpu95 ≤ 30`)
and an available smaller type — produce a `monitor` recommendation, not a
`downsize` one: the code compares `p95 < 30` strictly. -/
theorem c1_boundary_counterexample :
    (calcStats c1CpuCol).avg < 15 ∧ (calcStats c1CpuCol).p95 = 30 ∧
    (calcStats c1RamCol).avg < 25 ∧ (calcStats c1RamCol).p95 ≤ 50 ∧
    70 < (calcStats c1CpuCol).low_usage_percentage.getD 0 ∧
    getSmallerInstanceType "t3.large" "EC2" ≠ "t3.large" ∧
    ((genRec "i-1" "node1" "EC2" "t3.large" (calcStats c1CpuCol)
        (calcStats c1RamCol) none 7).toOption.map (fun r => r.action))
      = some "monitor" := by
  with_unfolding_all decide

/-- Claim C1 (amended): with the strict comparisons the code uses
(`cpu95 < 30`, `ram95 < 50`) and the other downsize conditions, plus a
distinct entry in the downsize table, `genRec` returns a downsize
recommendation with the table's smaller type, high confidence, the savings
from the price table, and priority high exactly when those savings exceed
100. -/
theorem c1_downsize_strict (instanceId nm service instanceType : String)
    (cpu ram : UtilStats) (disk : Option UtilStats) (n : Nat) (lup : ℚ)
    (hlup : cpu.low_usage_percentage = some lup)
    (h1 : cpu.avg < 15) (h2 : cpu.p95 < 30) (h3 : ram.avg < 25) (h4 : ram.p95 < 50)
    (h5 : 70 < lup)
    (h6 : getSmallerInstanceType instanceType service ≠ instanceType) :
    (genRec instanceId nm service instanceType cpu ram disk n).toOption.map
      (fun r => (r.action, r.recommended_type, r.confidence, r.priority,
        r.estimated_monthly_savings)) =
      some ("downsize", getSmallerInstanceType instanceType service, "high",
        (if 100 < estimateCostSavings instanceType
            (getSmallerInstanceType instanceType service) service
          then "high" else "medium"),
        estimateCostSavings instanceType
          (getSmallerInstanceType instanceType service) service) := by
  unfold genRec
  dsimp only
  rw [if_pos (show downFour cpu ram from ⟨h1, h2, h3, h4⟩), hlup]
  dsimp only
  rw [if_pos h5, if_pos h6]
  rfl

/-- Witness for C1 (amended): `m5.xlarge` downsizes to `m5.large` with
savings 140.16 > 100, hence priority high. -/
theorem c1_downsize_strict_witness :
    (genRec "i-1w" "node1w" "EC2" "m5.xlarge" c1wCpu c1wRam none 7).toOption.map
      (fun r => (r.action, r.recommended_type, r.confidence, r.priority,
        r.estimated_monthly_savings)) =
      some ("downsize", getSmallerInstanceType "m5.xlarge" "EC2", "high",
        (if 100 < estimateCostSavings "m5.xlarge"
            (getSmallerInstanceType "m5.xlarge" "EC2") "EC2"
          then "high" else "medium"),
        estimateCostSavings "m5.xlarge"
          (getSmallerInstanceType "m5.xlarge" "EC2") "EC2") :=
  c1_downsize_strict "i-1w" "node1w" "EC2" "m5.xlarge" c1wCpu c1wRam none 7 80
    (by with_unfolding_all decide) (by with_unfolding_all decide)
    (by with_unfolding_all decide) (by with_unfolding_all decide)
    (by with_unfolding_all decide) (by with_unfolding_all decide)
    (by with_unfolding_all decide)

/-- Claim C2 (counterexample): a resource meeting every downsize threshold
whose type `t2.micro` has no entry in the downsize table yields a
recommendation whose action is the default `monitor`, not `downsize`: the
result is not classified into the branch whose thresholds it met. -/
theorem c2_table_miss_counterexample :
    downFour c2Cpu c2Ram ∧
    c2Cpu.low_usage_percentage = some 80 ∧ (70 : ℚ) < 80 ∧
    getSmallerInstanceType "t2.micro" "EC2" = "t2.micro" ∧
    ((genRec "i-2" "node2" "EC2" "t2.micro" c2Cpu c2Ram none 7).toOption.map
      (fun r => (r.action, r.recommended_type)))
      = some ("monitor", "t2.micro") ∧
    ((genRec "i-2" "node2" "EC2" "t2.micro" c2Cpu c2Ram none 7).toOption.map
      (fun r => r.action)) ≠ some "downsize" := by
  with_unfolding_all decide

/-- Claim C2 (amended): when a resource meets the thresholds of a
type-changing branch (downsize, upsize, or optimize-memory, in the code's
priority order) but the branch's static table has no entry for its current
type, `genRec` raises no error and returns the unchanged default record:
action `monitor`, `recommended_type` equal to the current type, and no
contribution to the actionable `total_recommendations` count of the monthly
summary. -/
theorem c2_table_miss_no_op (instanceId nm service instanceType : String)
    (cpu ram : UtilStats) (disk : Option UtilStats) (n : Nat) (lup hcp hrp : ℚ)
    (hlup : cpu.low_usage_percentage = some lup)
    (hhcp : cpu.high_usage_percentage = some hcp)
    (hhrp : ram.high_usage_percentage = some hrp)
    (H : (downFour cpu ram ∧ 70 < lup ∧
            getSmallerInstanceType instanceType service = instanceType)
      ∨ (¬(downFour cpu ram ∧ 70 < lup) ∧ (75 < cpu.avg ∧ 90 < cpu.p95) ∧
            30 < hcp ∧ getLargerInstanceType instanceType service = instanceType)
      ∨ (¬(downFour cpu ram ∧ 70 < lup) ∧
            ¬((75 < cpu.avg ∧ 90 < cpu.p95) ∧ 30 < hcp) ∧
            (85 < ram.avg ∧ 95 < ram.p95) ∧ 25 < hrp ∧
            getMemoryOptimizedType instanceType service = instanceType)) :
    genRec instanceId nm service instanceType cpu ram disk n =
      .ok (baseRec instanceId nm service instanceType cpu ram disk n) ∧
    (baseRec instanceId nm service instanceType cpu ram disk n).action = "monitor" ∧
    (baseRec instanceId nm service instanceType cpu ram disk n).recommended_type
      = instanceType ∧
    (∀ (recent : List Row) (recs : List Recommendation),
      (genMSummary recent
          (baseRec instanceId nm service instanceType cpu ram disk n :: recs)).total_recommendations
        = (genMSummary recent recs).total_recommendations) := by
  refine ⟨?_, rfl, rfl, ?_⟩
  · rcases H with ⟨hd, h70, hmiss⟩ | ⟨hnd, hup2, h30, hmiss⟩ | ⟨hnd, hnup, hram2, h25, hmiss⟩
    · exact genRec_down_miss instanceId nm service instanceType cpu ram disk n lup
        hlup hd h70 hmiss
    · rw [genRec_skip_down instanceId nm service instanceType cpu ram disk n lup hlup hnd]
      exact genRecUp_enter_miss _ service instanceType cpu ram disk hcp hhcp hup2 h30 hmiss
    · rw [genRec_skip_down instanceId nm service instanceType cpu ram disk n lup hlup hnd,
        genRecUp_skip _ service instanceType cpu ram disk hcp hhcp hnup]
      exact genRecRam_enter_miss _ service instanceType ram disk hrp hhrp hram2 h25 hmiss
  · intro recent recs
    simp [genMSummary, baseRec]

/-- Witness for C2 (amended) at the concrete downsize-threshold statistics
with the unmapped type `t2.micro`. -/
theorem c2_table_miss_no_op_witness :
    genRec "i-2" "node2" "EC2" "t2.micro" c2Cpu c2Ram none 7 =
      .ok (baseRec "i-2" "node2" "EC2" "t2.micro" c2Cpu c2Ram none 7) ∧
    (baseRec "i-2" "node2" "EC2" "t2.micro" c2Cpu c2Ram none 7).action = "monitor" ∧
    (baseRec "i-2" "node2" "EC2" "t2.micro" c2Cpu c2Ram none 7).recommended_type
      = "t2.micro" ∧
    (∀ (recent : List Row) (recs : List Recommendation),
      (genMSummary recent
          (baseRec "i-2" "node2" "EC2" "t2.micro" c2Cpu c2Ram none 7 :: recs)).total_recommendations
        = (genMSummary recent recs).total_recommendations) :=
  c2_table_miss_no_op "i-2" "node2" "EC2" "t2.micro" c2Cpu c2Ram none 7 80 0 0
    (by with_unfolding_all decide) (by with_unfolding_all decide)
    (by with_unfolding_all decide)
    (Or.inl ⟨by with_unfolding_all decide, by with_unfolding_all decide,
      by with_unfolding_all decide⟩)

/-- Claim C8 (counterexample): an `increase_storage` recommendation — a
non-monitor action — reports estimated monthly savings 0 and estimated
monthly cost increase 0, so it is not the case that exactly one of the two
is non-zero for every non-monitor recommendation. -/
theorem c8_both_zero_counterexample :
    ((genRec "i-8" "node8" "EC2" "t3.large" c8Cpu c8Ram (some c8Disk) 7).toOption.map
      (fun r => (r.action, r.estimated_monthly_savings,
        r.estimated_monthly_cost_increase)))
      = some ("increase_storage", 0, 0) ∧
    ("increase_storage" : String) ≠ "monitor" := by
  with_unfolding_all decide

/-- Claim C8 (amended): for every successful recommendation with a
non-monitor action, the estimated monthly savings and cost increase are each
non-negative and at most one of them is non-zero: a downsize reports only
savings, an upsize or optimize-memory reports only a cost increase (possibly
zero, when the price table prices the target at or below the current type),
and increase-storage reports neither. -/
theorem c8_savings_increase_exclusive (instanceId nm service instanceType : String)
    (cpu ram : UtilStats) (disk : Option UtilStats) (n : Nat) (r : Recommendation)
    (h : genRec instanceId nm service instanceType cpu ram disk n = .ok r)
    (hact : r.action ≠ "monitor") :
    0 ≤ r.estimated_monthly_savings ∧ 0 ≤ r.estimated_monthly_cost_increase ∧
    (r.estimated_monthly_savings = 0 ∨ r.estimated_monthly_cost_increase = 0) ∧
    (r.action = "downsize" → r.estimated_monthly_cost_increase = 0) ∧
    ((r.action = "upsize" ∨ r.action = "optimize_memory") →
      r.estimated_monthly_savings = 0) ∧
    (r.action = "increase_storage" →
      r.estimated_monthly_savings = 0 ∧ r.estimated_monthly_cost_increase = 0) := by
  obtain ⟨-, hcases⟩ := genRec_ok_cases instanceId nm service instanceType cpu ram
    disk n r h
  rcases hcases with ⟨hm, -, -⟩ | ⟨ha, hi, hs⟩ | ⟨ha, hs, hi⟩ | ⟨ha, hs, hi⟩ | ⟨ha, hs, hi⟩
  · exact absurd hm hact
  · refine ⟨by rw [hs]; exact zero_le_estimateCostSavings _ _ _, hi.ge, Or.inr hi,
      fun _ => hi, fun hc => ?_, fun hc => ?_⟩
    · rw [ha] at hc
      rcases hc with hc | hc <;> exact absurd hc (by decide)
    · rw [ha] at hc
      exact absurd hc (by decide)
  · refine ⟨hs.ge, by rw [hi]; exact zero_le_estimateCostIncrease _ _ _, Or.inl hs,
      fun hc => ?_, fun _ => hs, fun hc => ?_⟩
    · rw [ha] at hc
      exact absurd hc (by decide)
    · rw [ha] at hc
      exact absurd hc (by decide)
  · refine ⟨hs.ge, by rw [hi]; exact zero_le_estimateCostIncrease _ _ _, Or.inl hs,
      fun hc => ?_, fun _ => hs, fun hc => ?_⟩
    · rw [ha] at hc
      exact absurd hc (by decide)
    · rw [ha] at hc
      exact absurd hc (by decide)
  · refine ⟨hs.ge, hi.ge, Or.inl hs,
      fun hc => ?_, fun _ => hs, fun _ => ⟨hs, hi⟩⟩
    · rw [ha] at hc
      exact absurd hc (by decide)

/-- Witness for C8 (amended) at the concrete `increase_storage`
recommendation. -/
theorem c8_savings_increase_exclusive_witness :
    0 ≤ c8WitnessRec.estimated_monthly_savings ∧
    0 ≤ c8WitnessRec.estimated_monthly_cost_increase ∧
    (c8WitnessRec.estimated_monthly_savings = 0 ∨
      c8WitnessRec.estimated_monthly_cost_increase = 0) ∧
    (c8WitnessRec.action = "downsize" →
      c8WitnessRec.estimated_monthly_cost_increase = 0) ∧
    ((c8WitnessRec.action = "upsize" ∨ c8WitnessRec.action = "optimize_memory") →
      c8WitnessRec.estimated_monthly_savings = 0) ∧
    (c8WitnessRec.action = "increase_storage" →
      c8WitnessRec.estimated_monthly_savings = 0 ∧
      c8WitnessRec.estimated_monthly_cost_increase = 0) :=
  c8_savings_increase_exclusive "i-8" "node8" "EC2" "t3.large" c8Cpu c8Ram
    (some c8Disk) 7 c8WitnessRec (by with_unfolding_all decide)
    (by with_unfolding_all decide)

/-! ## Helper lemmas about `analyze` -/

theorem mem_uniqueIds_foldl (rs : List Row) :
    ∀ (acc : List String) (i : String),
      i ∈ rs.foldl (fun acc r => if r.id ∈ acc then acc else acc ++ [r.id]) acc ↔
        i ∈ acc ∨ i ∈ rs.map (fun r => r.id) := by
  induction rs with
  | nil => simp
  | cons r rs ih =>
    intro acc i
    simp only [List.foldl_cons, List.map_cons, List.mem_cons]
    by_cases h : r.id ∈ acc
    · rw [if_pos h, ih]
      constructor
      · rintro (hi | hm)
        exacts [Or.inl hi, Or.inr (Or.inr hm)]
      · rintro (hi | rfl | hm)
        exacts [Or.inl hi, Or.inl h, Or.inr hm]
    · rw [if_neg h, ih]
      simp only [List.mem_append, List.mem_singleton]
      tauto

theorem nodup_uniqueIds_foldl (rs : List Row) :
    ∀ acc : List String, acc.Nodup →
      (rs.foldl (fun acc r => if r.id ∈ acc then acc else acc ++ [r.id]) acc).Nodup := by
  induction rs with
  | nil => intro acc h; simpa using h
  | cons r rs ih =>
    intro acc h
    simp only [List.foldl_cons]
    by_cases hm : r.id ∈ acc
    · rw [if_pos hm]; exact ih acc h
    · rw [if_neg hm]
      refine ih _ ?_
      simp [List.nodup_append, h, hm]

theorem mem_uniqueIds (rs : List Row) (i : String) :
    i ∈ uniqueIds rs ↔ i ∈ rs.map (fun r => r.id) := by
  unfold uniqueIds
  rw [mem_uniqueIds_foldl]
  simp

theorem uniqueIds_nodup (rs : List Row) : (uniqueIds rs).Nodup :=
  nodup_uniqueIds_foldl rs [] (by simp)

theorem recFor_ok_id (i : String) (grp : List Row) (r : Recommendation)
    (h : recFor i grp = .ok r) : r.instance_id = i := by
  unfold recFor at h
  exact (genRec_ok_cases _ _ _ _ _ _ _ _ _ h).1

/-- The count of recommendations for a given id produced by the analysis
loop: one when the id is processed and has at least 7 samples, zero
otherwise. -/
theorem analyzeRecs_count (recent : List Row) :
    ∀ ids : List String, ids.Nodup →
      ∀ recs : List Recommendation, analyzeRecs recent ids = .ok recs →
        ∀ i : String,
          (recs.filter (fun r => r.instance_id = i)).length =
            if i ∈ ids ∧ 7 ≤ (recent.filter (fun r => r.id = i)).length
            then 1 else 0 := by
  intro ids
  induction ids with
  | nil =>
    intro _ recs hok i
    simp only [analyzeRecs] at hok
    injection hok with hok
    subst hok
    simp
  | cons a rest ih =>
    intro hnd recs hok i
    have hndr : rest.Nodup := (List.nodup_cons.mp hnd).2
    have hamem : a ∉ rest := (List.nodup_cons.mp hnd).1
    simp only [analyzeRecs] at hok
    by_cases hlen : (recent.filter (fun r => r.id = a)).length < 7
    · rw [if_pos hlen] at hok
      rw [ih hndr recs hok i]
      by_cases hia : i = a
      · subst hia
        rw [if_neg (fun hc => hamem hc.1), if_neg (fun hc => absurd hc.2 (by omega))]
      · refine if_congr ⟨fun hc => ⟨List.mem_cons_of_mem _ hc.1, hc.2⟩, fun hc => ?_⟩
          rfl rfl
        rcases List.mem_cons.mp hc.1 with rfl | hm'
        · exact absurd rfl hia
        · exact ⟨hm', hc.2⟩
    · rw [if_neg hlen] at hok
      cases h1 : recFor a (recent.filter (fun r => r.id = a)) with
      | error e => rw [h1] at hok; cases h2 : analyzeRecs recent rest <;>
          rw [h2] at hok <;> simp at hok
      | ok r =>
        rw [h1] at hok
        cases h2 : analyzeRecs recent rest with
        | error e => rw [h2] at hok; simp at hok
        | ok rs =>
          rw [h2] at hok
          dsimp only at hok
          injection hok with hok
          subst hok
          have hrid : r.instance_id = a := recFor_ok_id a _ r h1
          by_cases hia : i = a
          · subst hia
            rw [List.filter_cons_of_pos (by simp [hrid]), if_pos
              ⟨List.mem_cons_self i rest, by omega⟩]
            have hz := ih hndr rs h2 i
            rw [if_neg (fun hc => hamem hc.1)] at hz
            simp [hz]
          · rw [List.filter_cons_of_neg (by simp [hrid]; exact fun hc => hia hc.symm)]
            rw [ih hndr rs h2 i]
            refine if_congr ⟨fun hc => ⟨List.mem_cons_of_mem _ hc.1, hc.2⟩,
              fun hc => ?_⟩ rfl rfl
            rcases List.mem_cons.mp hc.1 with rfl | hm'
            · exact absurd rfl hia
            · exact ⟨hm', hc.2⟩

/-- If a processed id's recommendation raises, the whole loop raises. -/
theorem analyzeRecs_error (recent : List Row) :
    ∀ ids : List String, ∀ i : String, i ∈ ids →
      7 ≤ (recent.filter (fun r => r.id = i)).length →
      recFor i (recent.filter (fun r => r.id = i)) = .error () →
      analyzeRecs recent ids = .error () := by
  intro ids
  induction ids with
  | nil => intro i h; simp at h
  | cons a rest ih =>
    intro i hmem h7 herr
    simp only [analyzeRecs]
    by_cases hia : i = a
    · subst hia
      rw [if_neg (by omega), herr]
      cases h2 : analyzeRecs recent rest <;> rfl
    · have hmem' : i ∈ rest := by
        rcases List.mem_cons.mp hmem with rfl | h
        · exact absurd rfl hia
        · exact h
      by_cases hlen : (recent.filter (fun r => r.id = a)).length < 7
      · rw [if_pos hlen]
        exact ih i hmem' h7 herr
      · rw [if_neg hlen]
        cases h1 : recFor a (recent.filter (fun r => r.id = a)) with
        | error e =>
          cases e
          cases h2 : analyzeRecs recent rest <;> rfl
        | ok r =>
          rw [ih i hmem' h7 herr]

theorem calcStats_of_empty (col : List (Option ℚ)) (h : col.filterMap id = []) :
    calcStats col = emptyStats := by
  unfold calcStats
  dsimp only
  rw [h]
  rfl

theorem calcStats_nonempty_isSome (col : List (Option ℚ))
    (h : col.filterMap id ≠ []) :
    (calcStats col).low_usage_percentage.isSome = true ∧
    (calcStats col).high_usage_percentage.isSome = true := by
  unfold calcStats
  dsimp only
  rw [if_neg (by simpa [List.isEmpty_iff] using h)]
  exact ⟨rfl, rfl⟩

theorem genRecRam_isOk (base : Recommendation) (service instanceType : String)
    (ram : UtilStats) (disk : Option UtilStats)
    (hrup : (85 < ram.avg ∧ 95 < ram.p95) → ram.high_usage_percentage.isSome = true) :
    (genRecRam base service instanceType ram disk).isOk = true := by
  unfold genRecRam
  by_cases h : 85 < ram.avg ∧ 95 < ram.p95
  · rw [if_pos h]
    obtain ⟨x, hx⟩ := Option.isSome_iff_exists.mp (hrup h)
    rw [hx]
    dsimp only
    split
    · split <;> rfl
    · rfl
  · rw [if_neg h]
    rfl

theorem genRecUp_isOk (base : Recommendation) (service instanceType : String)
    (cpu ram : UtilStats) (disk : Option UtilStats)
    (hcup : (75 < cpu.avg ∧ 90 < cpu.p95) → cpu.high_usage_percentage.isSome = true)
    (hrup : (85 < ram.avg ∧ 95 < ram.p95) → ram.high_usage_percentage.isSome = true) :
    (genRecUp base service instanceType cpu ram disk).isOk = true := by
  unfold genRecUp
  by_cases h : 75 < cpu.avg ∧ 90 < cpu.p95
  · rw [if_pos h]
    obtain ⟨x, hx⟩ := Option.isSome_iff_exists.mp (hcup h)
    rw [hx]
    dsimp only
    split
    · split <;> rfl
    · exact genRecRam_isOk base service instanceType ram disk hrup
  · rw [if_neg h]
    exact genRecRam_isOk base service instanceType ram disk hrup

theorem genRec_isOk (instanceId nm service instanceType : String)
    (cpu ram : UtilStats) (disk : Option UtilStats) (n : Nat)
    (hlow : downFour cpu ram → cpu.low_usage_percentage.isSome = true)
    (hcup : (75 < cpu.avg ∧ 90 < cpu.p95) → cpu.high_usage_percentage.isSome = true)
    (hrup : (85 < ram.avg ∧ 95 < ram.p95) → ram.high_usage_percentage.isSome = true) :
    (genRec instanceId nm service instanceType cpu ram disk n).isOk = true := by
  unfold genRec
  dsimp only
  by_cases h : downFour cpu ram
  · rw [if_pos h]
    obtain ⟨x, hx⟩ := Option.isSome_iff_exists.mp (hlow h)
    rw [hx]
    dsimp only
    by_cases h70 : 70 < x
    · rw [if_pos h70]
      split <;> rfl
    · rw [if_neg h70]
      exact genRecUp_isOk _ service instanceType cpu ram disk hcup hrup
  · rw [if_neg h]
    exact genRecUp_isOk _ service instanceType cpu ram disk hcup hrup

theorem genRec_emptyStats_error (instanceId nm service instanceType : String)
    (disk : Option UtilStats) (n : Nat) :
    genRec instanceId nm service instanceType emptyStats emptyStats disk n
      = .error () := by
  unfold genRec
  dsimp only
  rw [if_pos (show downFour emptyStats emptyStats from
    ⟨by norm_num [emptyStats], by norm_num [emptyStats],
     by norm_num [emptyStats], by norm_num [emptyStats]⟩)]
  rfl

/-! ## Claims C7, C9, C10 -/

/-- Claim C7: whenever the monthly analysis returns normally, a resource id
with fewer than 7 samples inside the trailing window contributes no
recommendation, and one with 7 or more contributes exactly one. -/
theorem c7_min_sample_gate (history : List Row) (now : Int) (instanceId : String) :
    match analyze history now with
    | .ok out =>
      (out.recommendations.filter (fun r => r.instance_id = instanceId)).length =
        if 7 ≤ ((history.filter (inWindow now)).filter
            (fun r => r.id = instanceId)).length
        then 1 else 0
    | .error _ => True := by
  unfold analyze
  by_cases h0 : history.isEmpty
  · rw [if_pos h0]
    obtain rfl : history = [] := List.isEmpty_iff.mp h0
    simp [emptyAnalyzeResult]
  · rw [if_neg h0]
    dsimp only
    by_cases h1 : (history.filter (inWindow now)).isEmpty
    · rw [if_pos h1]
      rw [List.isEmpty_iff.mp h1]
      simp [emptyAnalyzeResult]
    · rw [if_neg h1]
      cases hok : analyzeRecs (history.filter (inWindow now))
          (uniqueIds (history.filter (inWindow now))) with
      | error e => exact trivial
      | ok recs =>
        dsimp only
        rw [analyzeRecs_count (history.filter (inWindow now)) _
          (uniqueIds_nodup _) recs hok instanceId]
        refine if_congr ⟨fun hc => hc.2, fun hc => ⟨?_, hc⟩⟩ rfl rfl
        have hne : (history.filter (inWindow now)).filter
            (fun r => r.id = instanceId) ≠ [] := by
          intro hh
          rw [hh] at hc
          simp at hc
        obtain ⟨r, hr⟩ := List.exists_mem_of_ne_nil _ hne
        obtain ⟨hrm, hid⟩ := List.mem_filter.mp hr
        rw [mem_uniqueIds]
        exact List.mem_map.mpr ⟨r, hrm, by simpa using hid⟩

/-- Claim C9 (counterexample): the same seven-sample history analyzed at two
different wall-clock readings yields different results — at `now = 37` every
sample has aged out of the 30-day window, so the output degenerates — hence
`analyze` is not independent of the wall clock it reads via
`datetime.now()`. -/
theorem c9_wall_clock_counterexample :
    analyze c9Hist 30 ≠ analyze c9Hist 37 := by
  with_unfolding_all decide

/-- Claim C9 (amended): the extractor and analyzer are pure functions of
their explicit inputs, but the analyzer's inputs include the wall-clock
reading: given the same clock reading `now`, its output depends only on the
samples inside the trailing 30-day window anchored at `now`. -/
theorem c9_window_determines_output (history : List Row) (now : Int) :
    analyze history now = analyze (history.filter (inWindow now)) now := by
  unfold analyze
  by_cases h0 : history.isEmpty
  · obtain rfl : history = [] := List.isEmpty_iff.mp h0
    simp
  · rw [if_neg h0]
    dsimp only
    have hff : (history.filter (inWindow now)).filter (inWindow now)
        = history.filter (inWindow now) :=
      List.filter_eq_self.mpr (fun a ha => (List.mem_filter.mp ha).2)
    rw [hff]
    by_cases h1 : (history.filter (inWindow now)).isEmpty
    · simp [h1]
    · simp [h1]

/-- Claim C10: (1) the statistics helper returns the reduced all-zero record
without the percentage keys for a column with no numeric value; (2) a
resource with at least 7 in-window samples whose CPU and RAM values are all
non-numeric makes the whole analysis raise the modelled `KeyError`, because
the downsize check reads `low_usage_percentage` after its
always-satisfied-by-zero comparisons; (3) the classifier is total whenever
the resource has at least one numeric CPU value or RAM statistics failing
the downsize thresholds. -/
theorem c10_missing_stats_key :
    (∀ col : List (Option ℚ), col.filterMap id = [] → calcStats col = emptyStats) ∧
    (∀ (history : List Row) (now : Int) (i : String),
      7 ≤ ((history.filter (inWindow now)).filter (fun r => r.id = i)).length →
      (∀ r ∈ (history.filter (inWindow now)).filter (fun r => r.id = i),
        r.cpu = none) →
      (∀ r ∈ (history.filter (inWindow now)).filter (fun r => r.id = i),
        r.ram = none) →
      analyze history now = .error ()) ∧
    (∀ (instanceId nm service instanceType : String)
      (cpuCol ramCol : List (Option ℚ)) (disk : Option UtilStats) (n : Nat),
      (cpuCol.filterMap id ≠ [] ∨
        ¬((calcStats ramCol).avg < 25 ∧ (calcStats ramCol).p95 < 50)) →
      (genRec instanceId nm service instanceType (calcStats cpuCol)
        (calcStats ramCol) disk n).isOk = true) := by
  refine ⟨calcStats_of_empty, ?_, ?_⟩
  · intro history now i h7 hcpu hram
    have hgrpne : (history.filter (inWindow now)).filter (fun r => r.id = i)
        ≠ [] := by
      intro hh
      rw [hh] at h7
      simp at h7
    have hrecne : history.filter (inWindow now) ≠ [] := by
      intro hh
      rw [hh] at hgrpne
      simp at hgrpne
    have hhne : history ≠ [] := by
      intro hh
      rw [hh] at hrecne
      simp at hrecne
    have hmem : i ∈ uniqueIds (history.filter (inWindow now)) := by
      obtain ⟨r, hr⟩ := List.exists_mem_of_ne_nil _ hgrpne
      obtain ⟨hrm, hid⟩ := List.mem_filter.mp hr
      rw [mem_uniqueIds]
      exact List.mem_map.mpr ⟨r, hrm, by simpa using hid⟩
    have herr : recFor i ((history.filter (inWindow now)).filter
        (fun r => r.id = i)) = .error () := by
      unfold recFor
      have hc : (((history.filter (inWindow now)).filter
          (fun r => r.id = i)).map (fun r => r.cpu)).filterMap id = [] := by
        rw [List.filterMap_map]
        exact List.filterMap_eq_nil_iff.mpr (fun a ha => hcpu a ha)
      have hr : (((history.filter (inWindow now)).filter
          (fun r => r.id = i)).map (fun r => r.ram)).filterMap id = [] := by
        rw [List.filterMap_map]
        exact List.filterMap_eq_nil_iff.mpr (fun a ha => hram a ha)
      rw [calcStats_of_empty _ hc, calcStats_of_empty _ hr]
      exact genRec_emptyStats_error _ _ _ _ _ _
    unfold analyze
    rw [if_neg (by simpa [List.isEmpty_iff] using hhne)]
    dsimp only
    rw [if_neg (by simpa [List.isEmpty_iff] using hrecne)]
    rw [analyzeRecs_error (history.filter (inWindow now)) _ i hmem h7 herr]
  · intro instanceId nm service instanceType cpuCol ramCol disk n H
    refine genRec_isOk instanceId nm service instanceType _ _ disk n ?_ ?_ ?_
    · intro hdf
      rcases H with hne | hnp
      · exact (calcStats_nonempty_isSome cpuCol hne).1
      · exact absurd ⟨hdf.2.2.1, hdf.2.2.2⟩ hnp
    · intro hup
      by_cases hc : cpuCol.filterMap id = []
      · rw [calcStats_of_empty _ hc] at hup
        exact absurd hup.1 (by norm_num [emptyStats])
      · exact (calcStats_nonempty_isSome cpuCol hc).2
    · intro hram
      by_cases hr : ramCol.filterMap id = []
      · rw [calcStats_of_empty _ hr] at hram
        exact absurd hram.1 (by norm_num [emptyStats])
      · exact (calcStats_nonempty_isSome ramCol hr).2

/-- Witness for C10: an all-`none` column yields the reduced record; the
seven-sample all-non-numeric history makes `analyze` raise; a resource with
one numeric CPU sample is classified without error. -/
theorem c10_missing_stats_key_witness :
    calcStats [none, none] = emptyStats ∧
    analyze c10Hist 30 = .error () ∧
    (genRec "i-w" "nodew" "EC2" "t3.large" (calcStats [some 50])
      (calcStats [some 50]) none 7).isOk = true :=
  ⟨c10_missing_stats_key.1 [none, none] (by with_unfolding_all decide),
   c10_missing_stats_key.2.1 c10Hist 30 "i-10" (by with_unfolding_all decide)
     (by with_unfolding_all decide) (by with_unfolding_all decide),
   c10_missing_stats_key.2.2 "i-w" "nodew" "EC2" "t3.large" [some 50] [some 50]
     none 7 (Or.inl (by with_unfolding_all decide))⟩
